import Mathlib

/-!
Verification of the SSD1306 auto-detection and display driver
(files ssd1306/auto_detect_ssd1306.py and ssd1306/test_ssd1306_128x32.py).

The transport (smbus2) is modelled as a trace of bus events: a
write_byte_data call is recorded as Ev.wr addr ctrl byte, a
write_i2c_block_data call as Ev.blk addr ctrl data, and a time.sleep of n
milliseconds as Ev.sleepMs n.  Transport failures are supplied by boolean
oracles, since whether a given bus transaction raises is decided by the
environment, not by the code under verification.
-/

set_option maxRecDepth 10000

/-- One observable transport action of the driver: a single-byte register
write (smbus2 write_byte_data), a block write (write_i2c_block_data), or a
sleep, in milliseconds. -/
inductive Ev where
  | wr (addr ctrl b : Nat)
  | blk (addr ctrl : Nat) (data : List Nat)
  | sleepMs (ms : Nat)
deriving DecidableEq, Repr

/-- Python range(start, stop, step) for a positive step, as the list of
visited values. -/
def pyRange (start stop step : Nat) : List Nat :=
  List.range' start ((stop - start + step - 1) / step) step

/-- The command-emission loop shared verbatim by both init_display
implementations: while i < len(commands), if commands[i] is in the
two-byte opcode list and a following byte exists, write the opcode and its
argument, else write the single opcode; every write carries the command
control byte 0x00 and each iteration ends with time.sleep(0.001). -/
def init_loop (addr : Nat) (twoByte : List Nat) : List Nat → List Ev
  | [] => []
  | [c] => [Ev.wr addr 0x00 c, Ev.sleepMs 1]
  | c :: c2 :: rest =>
    if twoByte.contains c then
      Ev.wr addr 0x00 c :: Ev.wr addr 0x00 c2 :: Ev.sleepMs 1
        :: init_loop addr twoByte rest
    else
      Ev.wr addr 0x00 c :: Ev.sleepMs 1 :: init_loop addr twoByte (c2 :: rest)

/-- Table 4.2.1 of the specification: the power-up command sequence, one
entry per opcode with its optional immediate argument, for the 128x32
geometry (multiplex 0x1F, COM pins 0x02) and an implementation-chosen
contrast byte. -/
def spec_power_up_sequence (contrast : Nat) : List (Nat × Option Nat) :=
  [(0xAE, none), (0xD5, some 0x80), (0xA8, some 0x1F), (0xD3, some 0x00),
   (0x40, none), (0x8D, some 0x14), (0x20, some 0x00), (0xA1, none),
   (0xC8, none), (0xDA, some 0x02), (0x81, some contrast), (0xD9, some 0xF1),
   (0xDB, some 0x40), (0xA4, none), (0xA6, none), (0xAF, none)]

/-- The event trace the specification prescribes for a command sequence:
each opcode, and its argument byte when it has one, written with command
control byte 0x00, followed by a 1 ms settle delay per table entry. -/
def spec_command_trace (addr : Nat) (seq : List (Nat × Option Nat)) : List Ev :=
  seq.flatMap fun pc =>
    Ev.wr addr 0x00 pc.1 :: (pc.2.toList.map (Ev.wr addr 0x00) ++ [Ev.sleepMs 1])

namespace I2CDetector

/-- The fixed candidate address list from I2CDetector.__init__:
self.possible_addresses = [0x3c, 0x3d]. -/
def possible_addresses : List Nat := [0x3c, 0x3d]

/-- I2CDetector.find_i2c_buses: the bus numbers parsed from the
/dev/i2c-* device nodes (supplied here as the list devs), returned via
Python sorted(), i.e. in ascending order. -/
def find_i2c_buses (devs : List Nat) : List Nat :=
  List.insertionSort (· ≤ ·) devs

/-- I2CDetector.find_dln2_i2c_buses: keep only the buses for which
is_dln2_i2c_bus holds; the filesystem check is abstracted as the
predicate is_dln2. -/
def find_dln2_i2c_buses (devs : List Nat) (is_dln2 : Nat → Bool) : List Nat :=
  (find_i2c_buses devs).filter is_dln2

/-- The four operations inside the try block of test_ssd1306_on_bus, each
of which may raise. -/
inductive ProbeStep where
  | openBus
  | writeOff
  | writeOn
  | closeBus
deriving DecidableEq, Repr

/-- The try block of I2CDetector.test_ssd1306_on_bus: open the bus, write
the Display OFF opcode 0xAE, write the Entire-display-ON opcode 0xA4
(each with command control byte 0x00, followed by a 10 ms sleep), close.
The oracle fail says which step (if any) raises first; on success the
performed events are returned. -/
def probe_attempt (fail : ProbeStep → Bool) (addr : Nat) :
    Except ProbeStep (List Ev) :=
  if fail .openBus then .error .openBus
  else if fail .writeOff then .error .writeOff
  else if fail .writeOn then .error .writeOn
  else if fail .closeBus then .error .closeBus
  else .ok [Ev.wr addr 0x00 0xAE, Ev.sleepMs 10, Ev.wr addr 0x00 0xA4, Ev.sleepMs 10]

/-- I2CDetector.test_ssd1306_on_bus: the try block above with the blanket
except handler that swallows every exception and answers False. -/
def test_ssd1306_on_bus (fail : ProbeStep → Bool) (addr : Nat) : Bool :=
  match probe_attempt fail addr with
  | .ok _ => true
  | .error _ => false

/-- The inner address loop of I2CDetector.scan_for_ssd1306 for one bus:
try each candidate address in order, stop at the first success.  Returns
the list of probed (bus, address) pairs and the accepted address. -/
def scan_addr_loop (probe : Nat → Nat → Bool) (busNum : Nat) :
    List Nat → List (Nat × Nat) × Option Nat
  | [] => ([], none)
  | a :: rest =>
    if probe busNum a then ([(busNum, a)], some a)
    else
      let r := scan_addr_loop probe busNum rest
      ((busNum, a) :: r.1, r.2)

/-- The outer bus loop of I2CDetector.scan_for_ssd1306: for each DLN2 bus
in order, run the address loop; stop at the first accepted pair. -/
def scan_bus_loop (probe : Nat → Nat → Bool) :
    List Nat → List (Nat × Nat) × Option (Nat × Nat)
  | [] => ([], none)
  | b :: rest =>
    let r := scan_addr_loop probe b possible_addresses
    match r.2 with
    | some a => (r.1, some (b, a))
    | none =>
      let s := scan_bus_loop probe rest
      (r.1 ++ s.1, s.2)

/-- I2CDetector.scan_for_ssd1306: scan only the DLN2 buses; an empty DLN2
bus list is reported as not found at once.  The Python method stores the
accepted pair in found_bus and found_addr and returns True, or returns
False; this is modelled as the Option result, alongside the list of
probed pairs. -/
def scan_for_ssd1306 (devs : List Nat) (is_dln2 : Nat → Bool)
    (probe : Nat → Nat → Bool) : List (Nat × Nat) × Option (Nat × Nat) :=
  let dln2 := find_dln2_i2c_buses devs is_dln2
  if dln2.isEmpty then ([], none)
  else scan_bus_loop probe dln2

end I2CDetector

/-- A linear scan over an explicit list of (bus, address) pairs: the
reference shape against which the nested scan loops are compared.  Probes
each pair in order and stops at the first success, returning the probed
prefix and the accepted pair. -/
def lin_scan (P : Nat × Nat → Bool) :
    List (Nat × Nat) → List (Nat × Nat) × Option (Nat × Nat)
  | [] => ([], none)
  | p :: rest =>
    if P p then ([p], some p)
    else
      let r := lin_scan P rest
      (p :: r.1, r.2)

/-- The flat candidate list visited by scan_for_ssd1306: the filtered,
sorted buses, each paired with the candidate addresses in their given
order. -/
def scan_pairs (devs : List Nat) (is_dln2 : Nat → Bool) : List (Nat × Nat) :=
  (I2CDetector.find_dln2_i2c_buses devs is_dln2).flatMap
    (fun b => I2CDetector.possible_addresses.map (fun a => (b, a)))

namespace AutoSSD1306

/-- The flush precondition failure of the design.  AutoSSD1306
methods exit early without touching the bus when no bus or no buffer is
bound; the design names that outcome NotReadyError. -/
inductive DErr where
  | NotReadyError
deriving DecidableEq, Repr

/-- The command list of AutoSSD1306.init_display: 0xAE, multiplex pair,
offset pair, start line, charge pump pair, addressing mode pair, segment
remap, COM direction, COM pins pair, contrast pair (0xFF), pre-charge
pair, Vcomh pair, 0xA4, 0xA6, 0xAF.  It contains no clock-divide pair
0xD5 0x80. -/
def init_commands : List Nat :=
  [0xAE, 0xA8, 0x1F, 0xD3, 0x00, 0x40, 0x8D, 0x14, 0x20, 0x00,
   0xA1, 0xC8, 0xDA, 0x02, 0x81, 0xFF, 0xD9, 0xF1, 0xDB, 0x40,
   0xA4, 0xA6, 0xAF]

/-- The literal two-byte opcode list tested on every iteration of the
AutoSSD1306.init_display loop. -/
def two_byte : List Nat := [0xA8, 0xD3, 0x8D, 0x20, 0xDA, 0x81, 0xD9, 0xDB]

/-- AutoSSD1306.init_display: returns False with no writes when no bus is
bound, else runs the emission loop over its command list.  The
try/except that maps a transport failure to a False return is not
modelled; the trace is the successful emission. -/
def init_display (busBound : Bool) (addr : Nat) : Option (List Ev) :=
  if busBound then some (init_loop addr two_byte init_commands) else none

/-- AutoSSD1306.detect_display_size: with no bus bound it returns False;
otherwise it writes five size-probe commands (0xAE, the multiplex trial
0xA8 0x3F for 64 rows, then 0xA8 0x1F for 32 rows).  Both when every
write completes (failAt = none) and when write number k raises
(failAt = some k), it sets height 32 with 4 pages, allocates a
zero-filled pages-by-width buffer, and returns True.  The result is the
resolved (height, pages) and buffer, with the emitted trace. -/
def detect_display_size (busBound : Bool) (addr width : Nat)
    (failAt : Option Nat) :
    Option ((Nat × Nat) × List (List Nat)) × List Ev :=
  if busBound = false then (none, [])
  else
    let writes : List Nat := [0xAE, 0xA8, 0x3F, 0xA8, 0x1F]
    match failAt with
    | none =>
      (some ((32, 4), List.replicate 4 (List.replicate width 0x00)),
       writes.map (Ev.wr addr 0x00))
    | some k =>
      (some ((32, 4), List.replicate 4 (List.replicate width 0x00)),
       (writes.take k).map (Ev.wr addr 0x00))

/-- One page row of AutoSSD1306.update_display: for i in
range(0, width, 16), slice the chunk buffer[page][i:i+16] and attempt a
block write with data control byte 0x40; if the oracle says that block
write raises, send the chunk byte by byte with write_byte_data instead. -/
def send_page (addr width : Nat) (row : List Nat) (blkFailAt : Nat → Bool) :
    List Ev :=
  (pyRange 0 width 16).flatMap fun i =>
    let chunk := (row.drop i).take 16
    if blkFailAt i then chunk.map (Ev.wr addr 0x40)
    else [Ev.blk addr 0x40 chunk]

/-- AutoSSD1306.update_display: early exit when no bus is bound or no
buffer is allocated (the NotReadyError of the design); otherwise set the
addressing window (column 0 to the literal 0x7F, page 0 to pages-1) with
command-control-byte writes, then send every page in ascending order. -/
def update_display (busBound : Bool) (buffer : Option (List (List Nat)))
    (addr pages width : Nat) (blkFail : Nat → Nat → Bool) :
    List Ev × Except DErr Unit :=
  match busBound, buffer with
  | true, some buf =>
    ([Ev.wr addr 0x00 0x21, Ev.wr addr 0x00 0x00, Ev.wr addr 0x00 0x7F,
      Ev.wr addr 0x00 0x22, Ev.wr addr 0x00 0x00, Ev.wr addr 0x00 (pages - 1)]
      ++ (pyRange 0 pages 1).flatMap
          (fun page => send_page addr width (buf.getD page []) (blkFail page)),
     .ok ())
  | _, _ => ([], .error .NotReadyError)

end AutoSSD1306

/-- Python list assignment l[i] = v for an index that may be negative: a
negative in-range index counts from the end of the list.  An out-of-range
index raises IndexError in Python; every use below stays in range. -/
def pyListSet (l : List Nat) (i : Int) (v : Nat) : List Nat :=
  if 0 ≤ i then l.set i.toNat v else l.set (l.length - (-i).toNat) v

/-- Python list subscript buffer[page] for a page index that may be
negative, same rule as pyListSet. -/
def pyRowGet (l : List (List Nat)) (i : Int) : List Nat :=
  if 0 ≤ i then l.getD i.toNat [] else l.getD (l.length - (-i).toNat) []

/-- Writing back the mutated page row, same indexing rule. -/
def pyRowSet (l : List (List Nat)) (i : Int) (v : List Nat) : List (List Nat) :=
  if 0 ≤ i then l.set i.toNat v else l.set (l.length - (-i).toNat) v

namespace SSD1306_128x32

/-- The command list of SSD1306_128x32.init_display, with the clock-divide
pair 0xD5 0x80 and contrast 0xCF. -/
def init_commands : List Nat :=
  [0xAE, 0xD5, 0x80, 0xA8, 0x1F, 0xD3, 0x00, 0x40, 0x8D, 0x14, 0x20, 0x00,
   0xA1, 0xC8, 0xDA, 0x02, 0x81, 0xCF, 0xD9, 0xF1, 0xDB, 0x40,
   0xA4, 0xA6, 0xAF]

/-- The literal two-byte opcode list tested on every iteration of the
SSD1306_128x32.init_display loop. -/
def two_byte : List Nat :=
  [0xD5, 0xA8, 0xD3, 0x8D, 0x20, 0xDA, 0x81, 0xD9, 0xDB]

/-- SSD1306_128x32.init_display: the emission loop over its command
list; the bus is always bound by the constructor. -/
def init_display_trace (addr : Nat) : List Ev :=
  init_loop addr two_byte init_commands

/-- Python bitwise b AND NOT m on non-negative ints, as used by set_pixel
to clear one bit; for naturals this equals (b OR m) XOR m, which is the
computable form used here (proved equal to Nat.ldiff below). -/
def andNot (b m : Nat) : Nat := (b ||| m) ^^^ m

/-- SSD1306_128x32.set_pixel: a no-op unless 0 <= x < width and
0 <= y < height; otherwise a read-modify-write of bit y % 8 of
buffer[y // 8][x]: OR with 1 << bit to set, AND with the complement to
clear. -/
def set_pixel (buf : List (List Nat)) (width height : Nat) (x y : Int)
    (color : Bool) : List (List Nat) :=
  if 0 ≤ x ∧ x < (width : Int) ∧ 0 ≤ y ∧ y < (height : Int) then
    let page := y.toNat / 8
    let bit := y.toNat % 8
    let row := buf.getD page []
    let b := row.getD x.toNat 0
    let b2 := if color then b ||| (1 <<< bit) else andNot b (1 <<< bit)
    buf.set page (row.set x.toNat b2)
  else buf

/-- The built-in 6x8 font table of SSD1306_128x32.draw_char, one byte per
glyph column. -/
def font : Char → Option (List Nat)
  | 'A' => some [0x00, 0x7C, 0x12, 0x11, 0x12, 0x7C]
  | 'B' => some [0x00, 0x7F, 0x49, 0x49, 0x49, 0x36]
  | 'C' => some [0x00, 0x3E, 0x41, 0x41, 0x41, 0x22]
  | 'D' => some [0x00, 0x7F, 0x41, 0x41, 0x22, 0x1C]
  | 'E' => some [0x00, 0x7F, 0x49, 0x49, 0x49, 0x41]
  | 'F' => some [0x00, 0x7F, 0x09, 0x09, 0x09, 0x01]
  | 'G' => some [0x00, 0x3E, 0x41, 0x49, 0x49, 0x7A]
  | 'H' => some [0x00, 0x7F, 0x08, 0x08, 0x08, 0x7F]
  | 'I' => some [0x00, 0x00, 0x41, 0x7F, 0x41, 0x00]
  | 'J' => some [0x00, 0x20, 0x40, 0x41, 0x3F, 0x01]
  | 'K' => some [0x00, 0x7F, 0x08, 0x14, 0x22, 0x41]
  | 'L' => some [0x00, 0x7F, 0x40, 0x40, 0x40, 0x40]
  | 'M' => some [0x00, 0x7F, 0x02, 0x04, 0x02, 0x7F]
  | 'N' => some [0x00, 0x7F, 0x04, 0x08, 0x10, 0x7F]
  | 'O' => some [0x00, 0x3E, 0x41, 0x41, 0x41, 0x3E]
  | 'P' => some [0x00, 0x7F, 0x09, 0x09, 0x09, 0x06]
  | 'Q' => some [0x00, 0x3E, 0x41, 0x51, 0x21, 0x5E]
  | 'R' => some [0x00, 0x7F, 0x09, 0x19, 0x29, 0x46]
  | 'S' => some [0x00, 0x46, 0x49, 0x49, 0x49, 0x31]
  | 'T' => some [0x00, 0x01, 0x01, 0x7F, 0x01, 0x01]
  | 'U' => some [0x00, 0x3F, 0x40, 0x40, 0x40, 0x3F]
  | 'V' => some [0x00, 0x1F, 0x20, 0x40, 0x20, 0x1F]
  | 'W' => some [0x00, 0x3F, 0x40, 0x30, 0x40, 0x3F]
  | 'X' => some [0x00, 0x63, 0x14, 0x08, 0x14, 0x63]
  | 'Y' => some [0x00, 0x07, 0x08, 0x70, 0x08, 0x07]
  | 'Z' => some [0x00, 0x61, 0x51, 0x49, 0x45, 0x43]
  | ' ' => some [0x00, 0x00, 0x00, 0x00, 0x00, 0x00]
  | '!' => some [0x00, 0x00, 0x00, 0x5F, 0x00, 0x00]
  | '?' => some [0x00, 0x02, 0x01, 0x51, 0x09, 0x06]
  | ':' => some [0x00, 0x00, 0x36, 0x36, 0x00, 0x00]
  | '0' => some [0x00, 0x3E, 0x51, 0x49, 0x45, 0x3E]
  | '1' => some [0x00, 0x00, 0x42, 0x7F, 0x40, 0x00]
  | '2' => some [0x00, 0x42, 0x61, 0x51, 0x49, 0x46]
  | '3' => some [0x00, 0x21, 0x41, 0x45, 0x4B, 0x31]
  | '4' => some [0x00, 0x18, 0x14, 0x12, 0x7F, 0x10]
  | '5' => some [0x00, 0x27, 0x45, 0x45, 0x45, 0x39]
  | '6' => some [0x00, 0x3C, 0x4A, 0x49, 0x49, 0x30]
  | '7' => some [0x00, 0x01, 0x71, 0x09, 0x05, 0x03]
  | '8' => some [0x00, 0x36, 0x49, 0x49, 0x49, 0x36]
  | '9' => some [0x00, 0x06, 0x49, 0x49, 0x29, 0x1E]
  | _ => none

/-- SSD1306_128x32.draw_char: characters outside the font are skipped;
page = y // 8 (Python floor division); for each glyph column i the guard
checks only x + i < width and page < pages before the assignment
buffer[page][x + i] = col_data, with Python indexing semantics (no lower
bound is checked on either index). -/
def draw_char (buf : List (List Nat)) (width pages : Nat) (x y : Int)
    (c : Char) : List (List Nat) :=
  match font c with
  | none => buf
  | some glyph =>
    let page := Int.fdiv y 8
    (List.range glyph.length).foldl
      (fun b (i : Nat) =>
        if x + (i : Int) < (width : Int) ∧ page < (pages : Int) then
          pyRowSet b page
            (pyListSet (pyRowGet b page) (x + (i : Int)) (glyph.getD i 0))
        else b)
      buf

/-- SSD1306_128x32.draw_rect: filled draws every interior pixel; unfilled
draws the top and bottom edges (one loop over dx, two set_pixel calls per
iteration) and then the left and right edges (one loop over dy, two calls
per iteration), all through set_pixel with color 1. -/
def draw_rect (buf : List (List Nat)) (width height : Nat) (x y w h : Int)
    (fill : Bool) : List (List Nat) :=
  if fill then
    (List.range h.toNat).foldl
      (fun b dy =>
        (List.range w.toNat).foldl
          (fun b2 dx =>
            set_pixel b2 width height (x + (dx : Int)) (y + (dy : Int)) true)
          b)
      buf
  else
    let b1 := (List.range w.toNat).foldl
      (fun b dx =>
        set_pixel (set_pixel b width height (x + (dx : Int)) y true)
          width height (x + (dx : Int)) (y + h - 1) true)
      buf
    (List.range h.toNat).foldl
      (fun b dy =>
        set_pixel (set_pixel b width height x (y + (dy : Int)) true)
          width height (x + w - 1) (y + (dy : Int)) true)
      b1

/-- SSD1306_128x32.clear_buffer: every byte of the pages-by-width buffer
is assigned 0x00. -/
def clear_buffer (pages width : Nat) : List (List Nat) :=
  List.replicate pages (List.replicate width 0x00)

/-- One page row of SSD1306_128x32.update_display: blocks run from
block_start to block_end = min(block_start + 16, width); a block write
carries [0x40] ++ slice as write_i2c_block_data(addr, 0x40, slice); on a
block-write failure the bytes of that block are sent one by one, each
read from the buffer row by index. -/
def send_page (addr width : Nat) (row : List Nat) (blkFailAt : Nat → Bool) :
    List Ev :=
  (pyRange 0 width 16).flatMap fun bs =>
    let be := min (bs + 16) width
    if blkFailAt bs then
      (pyRange bs be 1).map (fun i => Ev.wr addr 0x40 (row.getD i 0))
    else
      [Ev.blk addr 0x40 ((row.drop bs).take (be - bs))]

/-- SSD1306_128x32.update_display: addressing window with literal column
end 0x7F and literal page end 0x03, all with command control byte 0x00,
then every page in ascending order. -/
def update_display (buf : List (List Nat)) (addr pages width : Nat)
    (blkFail : Nat → Nat → Bool) : List Ev :=
  [Ev.wr addr 0x00 0x21, Ev.wr addr 0x00 0x00, Ev.wr addr 0x00 0x7F,
   Ev.wr addr 0x00 0x22, Ev.wr addr 0x00 0x00, Ev.wr addr 0x00 0x03]
  ++ (pyRange 0 pages 1).flatMap
      (fun page => send_page addr width (buf.getD page []) (blkFail page))

end SSD1306_128x32

/-- Predicate picking out block-write events. -/
def isBlk : Ev → Bool
  | Ev.blk _ _ _ => true
  | _ => false

/-- The pixel-data bytes an event carries: a single write carries its
byte, a block write its block, a sleep nothing. -/
def evBytes : Ev → List Nat
  | Ev.wr _ _ b => [b]
  | Ev.blk _ _ data => data
  | Ev.sleepMs _ => []

/-- The framebuffer of the end-to-end scenario: clear, then
draw_rect(0, 0, 128, 32) unfilled on the 128x32 geometry. -/
def c9_buffer : List (List Nat) :=
  SSD1306_128x32.draw_rect (SSD1306_128x32.clear_buffer 4 128) 128 32
    0 0 128 32 false

/-- The flush trace of the end-to-end scenario, at address 0x3C, with no
block-write failures. -/
def c9_trace : List Ev :=
  SSD1306_128x32.update_display c9_buffer 0x3C 4 128 (fun _ _ => false)

/-- The framebuffer after drawing the character A at x = -3, y = 0 on an
all-zero 128x32 buffer. -/
def c10_buffer : List (List Nat) :=
  SSD1306_128x32.draw_char (List.replicate 4 (List.replicate 128 0x00))
    128 4 (-3) 0 'A'

theorem lin_scan_fst (P : Nat × Nat → Bool) :
    ∀ l : List (Nat × Nat),
      (lin_scan P l).1
        = l.takeWhile (fun p => !P p) ++ (l.dropWhile (fun p => !P p)).take 1 := by
  intro l
  induction l with
  | nil => rfl
  | cons p rest ih =>
    by_cases h : P p = true
    · simp [lin_scan, h, List.takeWhile_cons, List.dropWhile_cons]
    · simp only [Bool.not_eq_true] at h
      simp [lin_scan, h, List.takeWhile_cons, List.dropWhile_cons, ih]

theorem lin_scan_snd (P : Nat × Nat → Bool) :
    ∀ l : List (Nat × Nat), (lin_scan P l).2 = l.find? P := by
  intro l
  induction l with
  | nil => rfl
  | cons p rest ih =>
    by_cases h : P p = true
    · simp [lin_scan, h, List.find?_cons, ih]
    · simp only [Bool.not_eq_true] at h
      simp [lin_scan, h, List.find?_cons, ih]

theorem scan_bus_loop_eq_lin_scan (probe : Nat → Nat → Bool) :
    ∀ buses : List Nat,
      I2CDetector.scan_bus_loop probe buses
        = lin_scan (fun p => probe p.1 p.2)
            (buses.flatMap
              (fun b => I2CDetector.possible_addresses.map (fun a => (b, a)))) := by
  intro buses
  induction buses with
  | nil => rfl
  | cons b rest ih =>
    cases h1 : probe b 0x3c <;> cases h2 : probe b 0x3d <;>
      simp [I2CDetector.scan_bus_loop, I2CDetector.scan_addr_loop,
        I2CDetector.possible_addresses, lin_scan, h1, h2, ih] <;>
      exact ⟨rfl, rfl⟩

/-- C3: scan_for_ssd1306 visits the adapter-filtered endpoints in ascending
numeric order and, within each endpoint, the candidate addresses in their
given order; it probes exactly the candidates up to and including the first
success, returns that first success, and reports not-found exactly when no
candidate succeeds, in particular when no endpoint passes the DLN2 filter. -/
theorem C3_scan_order (devs : List Nat) (is_dln2 : Nat → Bool)
    (probe : Nat → Nat → Bool) :
    List.Sorted (· ≤ ·) (I2CDetector.find_dln2_i2c_buses devs is_dln2)
    ∧ (I2CDetector.scan_for_ssd1306 devs is_dln2 probe).1
        = (scan_pairs devs is_dln2).takeWhile (fun p => !probe p.1 p.2)
          ++ ((scan_pairs devs is_dln2).dropWhile (fun p => !probe p.1 p.2)).take 1
    ∧ (I2CDetector.scan_for_ssd1306 devs is_dln2 probe).2
        = (scan_pairs devs is_dln2).find? (fun p => probe p.1 p.2)
    ∧ ((I2CDetector.scan_for_ssd1306 devs is_dln2 probe).2 = none
        ↔ ∀ p ∈ scan_pairs devs is_dln2, probe p.1 p.2 = false) := by
  have hsorted : List.Sorted (· ≤ ·) (I2CDetector.find_dln2_i2c_buses devs is_dln2) :=
    List.Pairwise.filter is_dln2 (List.sorted_insertionSort _ devs)
  have hmain : I2CDetector.scan_for_ssd1306 devs is_dln2 probe
      = lin_scan (fun p => probe p.1 p.2) (scan_pairs devs is_dln2) := by
    unfold I2CDetector.scan_for_ssd1306 scan_pairs
    cases hd : I2CDetector.find_dln2_i2c_buses devs is_dln2 with
    | nil => rfl
    | cons b rest =>
      simp only [List.isEmpty_cons, Bool.false_eq_true, if_false]
      exact scan_bus_loop_eq_lin_scan probe (b :: rest)
  refine ⟨hsorted, ?_, ?_, ?_⟩
  · rw [hmain, lin_scan_fst]
  · rw [hmain, lin_scan_snd]
  · rw [hmain, lin_scan_snd, List.find?_eq_none]
    simp

/-- C7: a probe never lets a transport failure escape: whatever step of
the try block raises, test_ssd1306_on_bus returns a plain boolean, true
exactly when every step succeeded and false exactly when some step
raised; and after a failed probe the scanning loop goes on with the next
candidate, so only the exhausted-scan failure reaches the caller. -/
theorem C7_probe_swallow (fail : I2CDetector.ProbeStep → Bool) (addr : Nat)
    (probe : Nat → Nat → Bool) (b a : Nat) (rest : List Nat) :
    (I2CDetector.test_ssd1306_on_bus fail addr
        = (!fail .openBus && !fail .writeOff && !fail .writeOn && !fail .closeBus))
    ∧ (I2CDetector.test_ssd1306_on_bus fail addr = false
        ↔ ∃ e, I2CDetector.probe_attempt fail addr = Except.error e)
    ∧ (probe b a = false →
        I2CDetector.scan_addr_loop probe b (a :: rest)
          = ((b, a) :: (I2CDetector.scan_addr_loop probe b rest).1,
             (I2CDetector.scan_addr_loop probe b rest).2)) := by
  refine ⟨?_, ?_, ?_⟩
  · cases h1 : fail .openBus <;> cases h2 : fail .writeOff <;>
      cases h3 : fail .writeOn <;> cases h4 : fail .closeBus <;>
      simp [I2CDetector.test_ssd1306_on_bus, I2CDetector.probe_attempt,
        h1, h2, h3, h4]
  · cases h1 : fail .openBus <;> cases h2 : fail .writeOff <;>
      cases h3 : fail .writeOn <;> cases h4 : fail .closeBus <;>
      simp [I2CDetector.test_ssd1306_on_bus, I2CDetector.probe_attempt,
        h1, h2, h3, h4]
  · intro h
    simp [I2CDetector.scan_addr_loop, h]

theorem C7_probe_swallow_witness :
    I2CDetector.test_ssd1306_on_bus (fun _ => true) 0x3c = false
    ∧ I2CDetector.scan_addr_loop (fun _ _ => false) 1 [0x3c, 0x3d]
        = ([(1, 0x3c), (1, 0x3d)], none) := by
  have h := C7_probe_swallow (fun _ => true) 0x3c (fun _ _ => false) 1 0x3c [0x3d]
  refine ⟨?_, ?_⟩
  · rw [h.1]; rfl
  · rw [h.2.2 rfl]; rfl

theorem getD_set_self {α : Type} (v d : α) :
    ∀ (l : List α) (i : Nat), i < l.length → (l.set i v).getD i d = v := by
  intro l
  induction l with
  | nil => intro i h; simp at h
  | cons a tl ih =>
    intro i h
    cases i with
    | zero => rfl
    | succ n =>
      have hn : n < tl.length := by simpa using h
      simpa [List.getD_cons_succ] using ih n hn

theorem getD_set_ne {α : Type} (v d : α) :
    ∀ (l : List α) (i j : Nat), i ≠ j → (l.set i v).getD j d = l.getD j d := by
  intro l
  induction l with
  | nil => intro i j _; rfl
  | cons a tl ih =>
    intro i j hne
    cases i with
    | zero =>
      cases j with
      | zero => exact absurd rfl hne
      | succ m => rfl
    | succ n =>
      cases j with
      | zero => rfl
      | succ m =>
        have hnm : n ≠ m := fun hc => hne (by rw [hc])
        simpa [List.getD_cons_succ] using ih n m hnm

theorem testBit_andNot (b m k : Nat) :
    (SSD1306_128x32.andNot b m).testBit k = (b.testBit k && !(m.testBit k)) := by
  unfold SSD1306_128x32.andNot
  rw [Nat.testBit_xor, Nat.testBit_or]
  cases b.testBit k <;> cases m.testBit k <;> rfl

theorem andNot_eq_ldiff (b m : Nat) :
    SSD1306_128x32.andNot b m = Nat.ldiff b m :=
  Nat.eq_of_testBit_eq fun k => by rw [testBit_andNot, Nat.testBit_ldiff]

theorem testBit_one_shiftLeft (bit k : Nat) :
    (1 <<< bit).testBit k = decide (bit = k) := by
  rw [Nat.one_shiftLeft]
  exact Nat.testBit_two_pow

theorem clear_after_set (b bit : Nat) (hb : b.testBit bit = false) :
    SSD1306_128x32.andNot (b ||| (1 <<< bit)) (1 <<< bit) = b := by
  apply Nat.eq_of_testBit_eq
  intro k
  rw [testBit_andNot, Nat.testBit_or, testBit_one_shiftLeft]
  by_cases hk : bit = k
  · subst hk; simp [hb]
  · simp [hk]

theorem set_pixel_eq (buf : List (List Nat)) (width height : Nat) (x y : Int)
    (color : Bool)
    (h : 0 ≤ x ∧ x < (width : Int) ∧ 0 ≤ y ∧ y < (height : Int)) :
    SSD1306_128x32.set_pixel buf width height x y color
      = buf.set (y.toNat / 8) ((buf.getD (y.toNat / 8) []).set x.toNat
          (if color then
            (buf.getD (y.toNat / 8) []).getD x.toNat 0 ||| (1 <<< (y.toNat % 8))
           else
            SSD1306_128x32.andNot ((buf.getD (y.toNat / 8) []).getD x.toNat 0)
              (1 <<< (y.toNat % 8)))) := by
  unfold SSD1306_128x32.set_pixel
  rw [if_pos h]

theorem upd_row_read (buf : List (List Nat)) (P xn B : Nat)
    (hP : P < buf.length) :
    (buf.set P ((buf.getD P []).set xn B)).getD P [] = (buf.getD P []).set xn B :=
  getD_set_self _ [] buf P hP

theorem upd_read_same (buf : List (List Nat)) (P xn B : Nat)
    (hP : P < buf.length) (hx : xn < (buf.getD P []).length) :
    ((buf.set P ((buf.getD P []).set xn B)).getD P []).getD xn 0 = B := by
  rw [upd_row_read buf P xn B hP]
  exact getD_set_self B 0 _ xn hx

theorem upd_read_other (buf : List (List Nat)) (P xn B p c : Nat)
    (hP : P < buf.length) (h : p ≠ P ∨ c ≠ xn) :
    ((buf.set P ((buf.getD P []).set xn B)).getD p []).getD c 0
      = (buf.getD p []).getD c 0 := by
  by_cases hp : p = P
  · subst hp
    rcases h with h | h
    · exact absurd rfl h
    · rw [upd_row_read buf p xn B hP]
      rw [getD_set_ne B 0 _ xn c (fun hc => h hc.symm)]
  · rw [getD_set_ne _ [] buf P p (fun hc => hp hc.symm)]

/-- C4 counterexample: on a 4-page by 128-column buffer whose byte at
page 0, column 0 is 0x01 (the pixel (0,0) is already on), set_pixel
(0,0,true) then set_pixel (0,0,false) leaves 0x00, not the original
byte: the round trip of the claim does not restore an already-set
pixel. -/
theorem C4_counterexample :
    ((SSD1306_128x32.set_pixel
        (SSD1306_128x32.set_pixel
          ((List.replicate 4 (List.replicate 128 0x00)).set 0
            ((List.replicate 128 0x00).set 0 0x01))
          128 32 0 0 true)
        128 32 0 0 false).getD 0 []).getD 0 0
      ≠ (((List.replicate 4 (List.replicate 128 0x00)).set 0
            ((List.replicate 128 0x00).set 0 0x01)).getD 0 []).getD 0 0 := by
  decide

/-- C4 as amended: for an in-bounds coordinate, if the target bit is
clear in the original byte then set_pixel true followed by set_pixel
false restores the byte of buffer[y/8][x] exactly; and unconditionally,
neither call changes any bit of that byte other than bit y%8, and
neither call changes any other byte of the buffer. -/
theorem C4_set_pixel_roundtrip (buf : List (List Nat)) (width height : Nat)
    (x y : Int) (hx0 : 0 ≤ x) (hxw : x < (width : Int)) (hy0 : 0 ≤ y)
    (hyh : y < (height : Int)) (hpage : y.toNat / 8 < buf.length)
    (hcol : x.toNat < (buf.getD (y.toNat / 8) []).length) :
    (((buf.getD (y.toNat / 8) []).getD x.toNat 0).testBit (y.toNat % 8) = false →
      ((SSD1306_128x32.set_pixel
          (SSD1306_128x32.set_pixel buf width height x y true)
          width height x y false).getD (y.toNat / 8) []).getD x.toNat 0
        = (buf.getD (y.toNat / 8) []).getD x.toNat 0)
    ∧ (∀ j, j ≠ y.toNat % 8 →
        (((SSD1306_128x32.set_pixel buf width height x y true).getD
            (y.toNat / 8) []).getD x.toNat 0).testBit j
          = ((buf.getD (y.toNat / 8) []).getD x.toNat 0).testBit j
        ∧ (((SSD1306_128x32.set_pixel
              (SSD1306_128x32.set_pixel buf width height x y true)
              width height x y false).getD (y.toNat / 8) []).getD x.toNat 0).testBit j
          = ((buf.getD (y.toNat / 8) []).getD x.toNat 0).testBit j)
    ∧ (∀ p c, p ≠ y.toNat / 8 ∨ c ≠ x.toNat →
        ((SSD1306_128x32.set_pixel buf width height x y true).getD p []).getD c 0
            = (buf.getD p []).getD c 0
        ∧ ((SSD1306_128x32.set_pixel
              (SSD1306_128x32.set_pixel buf width height x y true)
              width height x y false).getD p []).getD c 0
            = (buf.getD p []).getD c 0) := by
  have hcond : 0 ≤ x ∧ x < (width : Int) ∧ 0 ≤ y ∧ y < (height : Int) :=
    ⟨hx0, hxw, hy0, hyh⟩
  have hsp1 : SSD1306_128x32.set_pixel buf width height x y true
      = buf.set (y.toNat / 8) ((buf.getD (y.toNat / 8) []).set x.toNat
          ((buf.getD (y.toNat / 8) []).getD x.toNat 0 ||| (1 <<< (y.toNat % 8)))) := by
    rw [set_pixel_eq buf width height x y true hcond]
    simp
  have hsp1_len : y.toNat / 8
      < (SSD1306_128x32.set_pixel buf width height x y true).length := by
    rw [hsp1, List.length_set]; exact hpage
  have hsp1_col : x.toNat
      < ((SSD1306_128x32.set_pixel buf width height x y true).getD
          (y.toNat / 8) []).length := by
    rw [hsp1, upd_row_read buf _ _ _ hpage, List.length_set]; exact hcol
  have hb1 : ((SSD1306_128x32.set_pixel buf width height x y true).getD
        (y.toNat / 8) []).getD x.toNat 0
      = (buf.getD (y.toNat / 8) []).getD x.toNat 0 ||| (1 <<< (y.toNat % 8)) := by
    rw [hsp1]
    exact upd_read_same buf (y.toNat / 8) x.toNat _ hpage hcol
  have hsp2 : SSD1306_128x32.set_pixel
        (SSD1306_128x32.set_pixel buf width height x y true) width height x y false
      = (SSD1306_128x32.set_pixel buf width height x y true).set (y.toNat / 8)
          (((SSD1306_128x32.set_pixel buf width height x y true).getD (y.toNat / 8) []).set
            x.toNat (SSD1306_128x32.andNot
              ((buf.getD (y.toNat / 8) []).getD x.toNat 0 ||| (1 <<< (y.toNat % 8)))
              (1 <<< (y.toNat % 8)))) := by
    rw [set_pixel_eq (SSD1306_128x32.set_pixel buf width height x y true)
      width height x y false hcond, hb1]
    simp
  have hb2 : ((SSD1306_128x32.set_pixel
        (SSD1306_128x32.set_pixel buf width height x y true)
        width height x y false).getD (y.toNat / 8) []).getD x.toNat 0
      = SSD1306_128x32.andNot
          ((buf.getD (y.toNat / 8) []).getD x.toNat 0 ||| (1 <<< (y.toNat % 8)))
          (1 <<< (y.toNat % 8)) := by
    rw [hsp2]
    exact upd_read_same _ (y.toNat / 8) x.toNat _ hsp1_len hsp1_col
  refine ⟨?_, ?_, ?_⟩
  · intro hbit
    rw [hb2, clear_after_set _ _ hbit]
  · intro j hj
    refine ⟨?_, ?_⟩
    · rw [hb1, Nat.testBit_or, testBit_one_shiftLeft]
      simp [Ne.symm hj]
    · rw [hb2, testBit_andNot, Nat.testBit_or, testBit_one_shiftLeft]
      simp [Ne.symm hj]
  · intro p c hpc
    refine ⟨?_, ?_⟩
    · rw [hsp1]
      exact upd_read_other buf (y.toNat / 8) x.toNat _ p c hpage hpc
    · rw [hsp2,
        upd_read_other _ (y.toNat / 8) x.toNat _ p c hsp1_len hpc, hsp1]
      exact upd_read_other buf (y.toNat / 8) x.toNat _ p c hpage hpc

/-- C4 witness: the amended round trip evaluated at coordinate (5, 9) on
the all-zero 4-page by 128-column buffer. -/
theorem C4_set_pixel_roundtrip_witness :
    ((SSD1306_128x32.set_pixel
        (SSD1306_128x32.set_pixel (List.replicate 4 (List.replicate 128 0x00))
          128 32 5 9 true)
        128 32 5 9 false).getD 1 []).getD 5 0
      = ((List.replicate 4 (List.replicate 128 0x00)).getD 1 []).getD 5 0 :=
  (C4_set_pixel_roundtrip (List.replicate 4 (List.replicate 128 0x00)) 128 32 5 9
    (by decide) (by decide) (by decide) (by decide) (by decide)
    (by decide)).1 (by decide)

/-- C1 counterexample: the specified power-up sequence contains the
clock-divide pair 0xD5 0x80, but AutoSSD1306.init_display never writes
opcode 0xD5 (at address 0x3C, for any contrast choice the 0xD5 write is
part of the prescribed trace and absent from the emitted one), so not
every session sends exactly the Table 4.2.1 sequence. -/
theorem C1_counterexample :
    Ev.wr 0x3C 0x00 0xD5 ∈ spec_command_trace 0x3C (spec_power_up_sequence 0xFF)
    ∧ Ev.wr 0x3C 0x00 0xD5 ∈ spec_command_trace 0x3C (spec_power_up_sequence 0xCF)
    ∧ Ev.wr 0x3C 0x00 0xD5 ∉ (AutoSSD1306.init_display true 0x3C).getD [] := by
  decide

/-- C1 as amended: SSD1306_128x32.init_display sends exactly the
Table 4.2.1 power-up sequence (contrast 0xCF), each opcode and argument
with command control byte 0x00 and a 1 ms settle delay per entry, while
AutoSSD1306.init_display sends exactly that sequence with the 0xD5 0x80
clock-divide pair omitted (contrast 0xFF). -/
theorem C1_init_sequences (addr : Nat) :
    SSD1306_128x32.init_display_trace addr
        = spec_command_trace addr (spec_power_up_sequence 0xCF)
    ∧ (AutoSSD1306.init_display true addr).getD []
        = spec_command_trace addr
            ((spec_power_up_sequence 0xFF).filter (fun pc => pc.1 != 0xD5)) :=
  ⟨rfl, rfl⟩

/-- C5: flushing a session that is connected (bus bound) but has no
allocated framebuffer yet, i.e. initialization has not been reached,
takes the early-return branch of update_display: it fails as
NotReadyError and performs zero transport writes. -/
theorem C5_flush_not_ready (addr pages width : Nat)
    (blkFail : Nat → Nat → Bool) :
    AutoSSD1306.update_display true none addr pages width blkFail
      = ([], Except.error AutoSSD1306.DErr.NotReadyError) := rfl

/-- C8: with a bus bound, detect_display_size succeeds for every failure
pattern of the five trial writes, resolving height 32 with 4 pages and a
zero-filled 4-page by 128-column framebuffer. -/
theorem C8_detect_size_fallback (addr : Nat) (failAt : Option Nat) :
    (AutoSSD1306.detect_display_size true addr 128 failAt).1
      = some ((32, 4), List.replicate 4 (List.replicate 128 0x00)) := by
  cases failAt <;> rfl

theorem evBytes_chunk (addr : Nat) (b : Bool) (chunk : List Nat) :
    (if b then chunk.map (Ev.wr addr 0x40)
     else [Ev.blk addr 0x40 chunk]).flatMap evBytes = chunk := by
  cases b with
  | false => simp [evBytes]
  | true =>
    simp only [if_true]
    induction chunk with
    | nil => rfl
    | cons c tl ih =>
      simp only [List.map_cons, List.flatMap_cons, evBytes, ih,
        List.singleton_append]

theorem send_page_bytes (addr width : Nat) (row : List Nat) (f : Nat → Bool) :
    (AutoSSD1306.send_page addr width row f).flatMap evBytes
      = (pyRange 0 width 16).flatMap (fun i => (row.drop i).take 16) := by
  unfold AutoSSD1306.send_page
  generalize pyRange 0 width 16 = l
  induction l with
  | nil => rfl
  | cons a l ih =>
    rw [List.flatMap_cons, List.flatMap_cons, List.flatMap_append, ih]
    congr 1
    exact evBytes_chunk addr (f a) ((row.drop a).take 16)

theorem update_bytes (buf : List (List Nat)) (addr pages width : Nat)
    (blkFail : Nat → Nat → Bool) :
    ((AutoSSD1306.update_display true (some buf) addr pages width blkFail).1.drop 6).flatMap
        evBytes
      = (pyRange 0 pages 1).flatMap (fun page =>
          (pyRange 0 width 16).flatMap
            (fun i => ((buf.getD page []).drop i).take 16)) := by
  have hdrop : (AutoSSD1306.update_display true (some buf) addr pages width blkFail).1.drop 6
      = (pyRange 0 pages 1).flatMap (fun page =>
          AutoSSD1306.send_page addr width (buf.getD page []) (blkFail page)) := rfl
  rw [hdrop]
  generalize pyRange 0 pages 1 = l
  induction l with
  | nil => rfl
  | cons p l ih =>
    rw [List.flatMap_cons, List.flatMap_cons, List.flatMap_append, ih,
      send_page_bytes]

/-- C2: on a session with the real geometry (width 128, 4 pages) and no
transport failures, both flush implementations first write the
addressing-window opcodes 0x21, 0x00, 0x7F (= width-1) and 0x22, 0x00,
0x03 (= pageCount-1) with command control byte 0x00, and then emit, page
by page in ascending order, exactly one block write per 16-byte-aligned
chunk of that page with data control byte 0x40, all of one page before
any byte of a later page. -/
theorem C2_flush_protocol (buf : List (List Nat)) (addr : Nat)
    (hlen : buf.length = 4) :
    AutoSSD1306.update_display true (some buf) addr 4 128 (fun _ _ => false)
      = ([Ev.wr addr 0x00 0x21, Ev.wr addr 0x00 0x00, Ev.wr addr 0x00 0x7F,
          Ev.wr addr 0x00 0x22, Ev.wr addr 0x00 0x00, Ev.wr addr 0x00 0x03]
          ++ (buf.map (fun row =>
                (pyRange 0 128 16).map
                  (fun i => Ev.blk addr 0x40 ((row.drop i).take 16)))).flatten,
         Except.ok ())
    ∧ SSD1306_128x32.update_display buf addr 4 128 (fun _ _ => false)
      = [Ev.wr addr 0x00 0x21, Ev.wr addr 0x00 0x00, Ev.wr addr 0x00 0x7F,
         Ev.wr addr 0x00 0x22, Ev.wr addr 0x00 0x00, Ev.wr addr 0x00 0x03]
          ++ (buf.map (fun row =>
                (pyRange 0 128 16).map
                  (fun i => Ev.blk addr 0x40 ((row.drop i).take 16)))).flatten := by
  rcases buf with _ | ⟨r0, buf⟩
  · simp only [List.length_nil] at hlen; omega
  rcases buf with _ | ⟨r1, buf⟩
  · simp only [List.length_cons, List.length_nil] at hlen; omega
  rcases buf with _ | ⟨r2, buf⟩
  · simp only [List.length_cons, List.length_nil] at hlen; omega
  rcases buf with _ | ⟨r3, buf⟩
  · simp only [List.length_cons, List.length_nil] at hlen; omega
  rcases buf with _ | ⟨r4, buf⟩
  · exact ⟨rfl, rfl⟩
  · simp only [List.length_cons] at hlen; omega

/-- C2 witness: the flush protocol shape evaluated on the all-zero
4-page by 128-column buffer at address 0x3C. -/
theorem C2_flush_protocol_witness :
    AutoSSD1306.update_display true (some (List.replicate 4 (List.replicate 128 0x00)))
        0x3C 4 128 (fun _ _ => false)
      = ([Ev.wr 0x3C 0x00 0x21, Ev.wr 0x3C 0x00 0x00, Ev.wr 0x3C 0x00 0x7F,
          Ev.wr 0x3C 0x00 0x22, Ev.wr 0x3C 0x00 0x00, Ev.wr 0x3C 0x00 0x03]
          ++ ((List.replicate 4 (List.replicate 128 0x00)).map (fun row =>
                (pyRange 0 128 16).map
                  (fun i => Ev.blk 0x3C 0x40 ((row.drop i).take 16)))).flatten,
         Except.ok ())
    ∧ SSD1306_128x32.update_display (List.replicate 4 (List.replicate 128 0x00))
        0x3C 4 128 (fun _ _ => false)
      = [Ev.wr 0x3C 0x00 0x21, Ev.wr 0x3C 0x00 0x00, Ev.wr 0x3C 0x00 0x7F,
         Ev.wr 0x3C 0x00 0x22, Ev.wr 0x3C 0x00 0x00, Ev.wr 0x3C 0x00 0x03]
          ++ ((List.replicate 4 (List.replicate 128 0x00)).map (fun row =>
                (pyRange 0 128 16).map
                  (fun i => Ev.blk 0x3C 0x40 ((row.drop i).take 16)))).flatten :=
  C2_flush_protocol (List.replicate 4 (List.replicate 128 0x00)) 0x3C rfl

theorem pyRange_one (a b : Nat) : pyRange a b 1 = List.range' a (b - a) 1 := by
  unfold pyRange
  congr 1
  omega

theorem wr_map_bytes (addr : Nat) (g : Nat → Nat) :
    ∀ l : List Nat,
      (l.map (fun i => Ev.wr addr 0x40 (g i))).flatMap evBytes = l.map g := by
  intro l
  induction l with
  | nil => rfl
  | cons a l ih =>
    simp only [List.map_cons, List.flatMap_cons, evBytes, ih,
      List.singleton_append]

theorem map_getD_range' (row : List Nat) :
    ∀ (n bs : Nat), bs + n ≤ row.length →
      (List.range' bs n 1).map (fun i => row.getD i 0) = (row.drop bs).take n := by
  intro n
  induction n with
  | zero => intro bs _; simp
  | succ n ih =>
    intro bs h
    have hbs : bs < row.length := by omega
    rw [show List.range' bs (n + 1) 1 = bs :: List.range' (bs + 1) n 1 from rfl,
      List.map_cons, ih (bs + 1) (by omega), List.drop_eq_getElem_cons hbs,
      List.take_succ_cons, List.getD_eq_getElem row 0 hbs]

theorem pyRange_16_lt (width : Nat) :
    ∀ bs ∈ pyRange 0 width 16, bs < width := by
  intro bs hbs
  unfold pyRange at hbs
  rw [List.mem_range'] at hbs
  obtain ⟨i, hi, rfl⟩ := hbs
  omega

theorem test_chunk_bytes (addr bs width : Nat) (row : List Nat) (b : Bool)
    (hrow : row.length = width) (hbs : bs < width) :
    (if b then
      (pyRange bs (min (bs + 16) width) 1).map
        (fun i => Ev.wr addr 0x40 (row.getD i 0))
     else
      [Ev.blk addr 0x40 ((row.drop bs).take (min (bs + 16) width - bs))]).flatMap
        evBytes
      = (row.drop bs).take (min (bs + 16) width - bs) := by
  cases b with
  | false => simp [evBytes]
  | true =>
    simp only [if_true]
    rw [pyRange_one, wr_map_bytes]
    exact map_getD_range' row (min (bs + 16) width - bs) bs (by omega)

theorem test_send_page_bytes (addr width : Nat) (row : List Nat)
    (f : Nat → Bool) (hrow : row.length = width) :
    (SSD1306_128x32.send_page addr width row f).flatMap evBytes
      = (pyRange 0 width 16).flatMap
          (fun bs => (row.drop bs).take (min (bs + 16) width - bs)) := by
  unfold SSD1306_128x32.send_page
  have hmem := pyRange_16_lt width
  revert hmem
  generalize pyRange 0 width 16 = l
  induction l with
  | nil => intro _; rfl
  | cons a l ih =>
    intro hmem
    rw [List.flatMap_cons, List.flatMap_cons, List.flatMap_append,
      ih (fun bs hbs => hmem bs (List.mem_cons_of_mem a hbs))]
    congr 1
    exact test_chunk_bytes addr a width row (f a) hrow
      (hmem a (List.mem_cons_self a l))

/-- C6: during a flush with an arbitrary pattern of block-write failures,
for both flush implementations, the data segment of the trace delivers,
page by page in ascending order, exactly the bytes of every 16-byte
chunk of every page: a failing chunk is replaced by one single-byte
data-mode write (control byte 0x40) per byte of that chunk while every
other chunk and every later page is still emitted; AutoSSD1306 moreover
still returns success.  The SSD1306_128x32 byte-delivery part assumes
the session invariant that the buffer is 4 rows of 128 columns, since
its fallback rereads the row by index. -/
theorem C6_block_fallback (buf : List (List Nat)) (addr : Nat)
    (blkFail : Nat → Nat → Bool) :
    (((AutoSSD1306.update_display true (some buf) addr 4 128 blkFail).1.drop 6).flatMap
        evBytes
      = (pyRange 0 4 1).flatMap (fun page =>
          (pyRange 0 128 16).flatMap
            (fun i => ((buf.getD page []).drop i).take 16)))
    ∧ ((AutoSSD1306.update_display true (some buf) addr 4 128 blkFail).1.drop 6
        = (pyRange 0 4 1).flatMap (fun page =>
            (pyRange 0 128 16).flatMap (fun i =>
              if blkFail page i then
                (((buf.getD page []).drop i).take 16).map (Ev.wr addr 0x40)
              else
                [Ev.blk addr 0x40 (((buf.getD page []).drop i).take 16)])))
    ∧ (AutoSSD1306.update_display true (some buf) addr 4 128 blkFail).2
        = Except.ok ()
    ∧ (buf.length = 4 → (∀ row ∈ buf, row.length = 128) →
        ((SSD1306_128x32.update_display buf addr 4 128 blkFail).drop 6).flatMap
            evBytes
          = (pyRange 0 4 1).flatMap (fun page =>
              (pyRange 0 128 16).flatMap (fun bs =>
                ((buf.getD page []).drop bs).take (min (bs + 16) 128 - bs))))
    ∧ ((SSD1306_128x32.update_display buf addr 4 128 blkFail).drop 6
        = (pyRange 0 4 1).flatMap (fun page =>
            (pyRange 0 128 16).flatMap (fun bs =>
              if blkFail page bs then
                (pyRange bs (min (bs + 16) 128) 1).map
                  (fun i => Ev.wr addr 0x40 ((buf.getD page []).getD i 0))
              else
                [Ev.blk addr 0x40
                  (((buf.getD page []).drop bs).take (min (bs + 16) 128 - bs))]))) := by
  refine ⟨update_bytes buf addr 4 128 blkFail, rfl, rfl, ?_, rfl⟩
  intro hlen hrow
  rcases buf with _ | ⟨r0, buf⟩
  · simp only [List.length_nil] at hlen; omega
  rcases buf with _ | ⟨r1, buf⟩
  · simp only [List.length_cons, List.length_nil] at hlen; omega
  rcases buf with _ | ⟨r2, buf⟩
  · simp only [List.length_cons, List.length_nil] at hlen; omega
  rcases buf with _ | ⟨r3, buf⟩
  · simp only [List.length_cons, List.length_nil] at hlen; omega
  rcases buf with _ | ⟨r4, buf⟩
  · have h0 : r0.length = 128 := hrow r0 (by simp)
    have h1 : r1.length = 128 := hrow r1 (by simp)
    have h2 : r2.length = 128 := hrow r2 (by simp)
    have h3 : r3.length = 128 := hrow r3 (by simp)
    have hd : (SSD1306_128x32.update_display [r0, r1, r2, r3] addr 4 128 blkFail).drop 6
        = SSD1306_128x32.send_page addr 128 r0 (blkFail 0)
          ++ (SSD1306_128x32.send_page addr 128 r1 (blkFail 1)
          ++ (SSD1306_128x32.send_page addr 128 r2 (blkFail 2)
          ++ (SSD1306_128x32.send_page addr 128 r3 (blkFail 3) ++ []))) := rfl
    have hr : (pyRange 0 4 1).flatMap (fun page =>
          (pyRange 0 128 16).flatMap (fun bs =>
            (([r0, r1, r2, r3].getD page []).drop bs).take (min (bs + 16) 128 - bs)))
        = (pyRange 0 128 16).flatMap
            (fun bs => (r0.drop bs).take (min (bs + 16) 128 - bs))
          ++ ((pyRange 0 128 16).flatMap
              (fun bs => (r1.drop bs).take (min (bs + 16) 128 - bs))
          ++ ((pyRange 0 128 16).flatMap
              (fun bs => (r2.drop bs).take (min (bs + 16) 128 - bs))
          ++ ((pyRange 0 128 16).flatMap
              (fun bs => (r3.drop bs).take (min (bs + 16) 128 - bs)) ++ []))) := rfl
    rw [hd, hr]
    simp only [List.flatMap_append, List.flatMap_nil]
    rw [test_send_page_bytes addr 128 r0 (blkFail 0) h0,
      test_send_page_bytes addr 128 r1 (blkFail 1) h1,
      test_send_page_bytes addr 128 r2 (blkFail 2) h2,
      test_send_page_bytes addr 128 r3 (blkFail 3) h3]
  · simp only [List.length_cons] at hlen; omega

/-- C6 witness: the byte-delivery conjunct for the SSD1306_128x32 flush
evaluated on the all-zero 4-page by 128-column buffer at address 0x3C
with the block write of page 0, chunk 16 failing. -/
theorem C6_block_fallback_witness :
    ((SSD1306_128x32.update_display (List.replicate 4 (List.replicate 128 0x00))
        0x3C 4 128 (fun p i => p == 0 && i == 16)).drop 6).flatMap evBytes
      = (pyRange 0 4 1).flatMap (fun page =>
          (pyRange 0 128 16).flatMap (fun bs =>
            (((List.replicate 4 (List.replicate 128 0x00)).getD page []).drop bs).take
              (min (bs + 16) 128 - bs))) :=
  (C6_block_fallback (List.replicate 4 (List.replicate 128 0x00)) 0x3C
      (fun p i => p == 0 && i == 16)).2.2.2.1 rfl (by decide)

/-- C9 counterexample: the end-to-end flush issues 32 block writes in
total, which contradicts the claimed exactly 4 writeBlock calls per page
(4 pages at 4 calls each would be 16): each 128-column page takes 8
blocks of 16 bytes, not 4. -/
theorem C9_counterexample :
    c9_trace.countP isBlk = 32 ∧ c9_trace.countP isBlk ≠ 4 * 4 := by
  decide

/-- C9 as amended: after clear and an unfilled draw_rect(0,0,128,32), the
flush emits the two addressing-window command groups and then, per page
in ascending order, 8 block writes of 16 bytes each (32 in total) with
data control byte 0x40; pages 0 and 3 are non-zero at every column, and
pages 1 and 2 are non-zero exactly at columns 0 and 127. -/
theorem C9_end_to_end :
    (c9_trace
      = [Ev.wr 0x3C 0x00 0x21, Ev.wr 0x3C 0x00 0x00, Ev.wr 0x3C 0x00 0x7F,
         Ev.wr 0x3C 0x00 0x22, Ev.wr 0x3C 0x00 0x00, Ev.wr 0x3C 0x00 0x03]
        ++ (c9_buffer.map (fun row =>
              (pyRange 0 128 16).map
                (fun i => Ev.blk 0x3C 0x40 ((row.drop i).take 16)))).flatten)
    ∧ c9_trace.countP isBlk = 32
    ∧ (c9_trace.drop 6).all
        (fun e => match e with
          | Ev.blk _ ctrl data => ctrl == 0x40 && data.length == 16
          | _ => false) = true
    ∧ (c9_buffer.getD 0 []).all (fun b => b != 0) = true
    ∧ (c9_buffer.getD 3 []).all (fun b => b != 0) = true
    ∧ ((c9_buffer.getD 1 []).getD 0 0 != 0) = true
    ∧ ((c9_buffer.getD 1 []).getD 127 0 != 0) = true
    ∧ (((c9_buffer.getD 1 []).drop 1).take 126).all (fun b => b == 0) = true
    ∧ ((c9_buffer.getD 2 []).getD 0 0 != 0) = true
    ∧ ((c9_buffer.getD 2 []).getD 127 0 != 0) = true
    ∧ (((c9_buffer.getD 2 []).drop 1).take 126).all (fun b => b == 0) = true := by
  decide

/-- C10: draw_char checks only the upper bounds before each glyph column
write, so drawing A at x = -3, y = 0 stores glyph columns through
Python negative indexing into the rightmost columns 125, 126, 127 of
page 0 (values 0x00, 0x7C, 0x12 of the glyph) as well as into columns
0, 1, 2, leaving the columns in between and the other pages untouched:
a character partially left of column 0 mutates the opposite edge of the
framebuffer instead of being clipped. -/
theorem C10_draw_char_negative_x :
    (c10_buffer.getD 0 []).getD 125 0 = 0x00
    ∧ (c10_buffer.getD 0 []).getD 126 0 = 0x7C
    ∧ (c10_buffer.getD 0 []).getD 127 0 = 0x12
    ∧ (c10_buffer.getD 0 []).getD 0 0 = 0x11
    ∧ (c10_buffer.getD 0 []).getD 1 0 = 0x12
    ∧ (c10_buffer.getD 0 []).getD 2 0 = 0x7C
    ∧ (((c10_buffer.getD 0 []).drop 3).take 122).all (fun b => b == 0) = true
    ∧ (c10_buffer.getD 1 []).all (fun b => b == 0) = true
    ∧ (c10_buffer.getD 2 []).all (fun b => b == 0) = true
    ∧ (c10_buffer.getD 3 []).all (fun b => b == 0) = true := by
  decide
